import Mathlib

/-!
Shallow embedding of `src/pgl/_pglEventListener.cpp` (macOS event-tap
listener, a CPython extension module) and verification of its
specification claims.

Modelling conventions:
* The C globals `callbackObj`, `listenerRunning`, `eatKeys`/`numEatKeys`
  are gathered into an explicit state record `LState`; the effective
  suppression registry (the first `numEatKeys` slots of `eatKeys`) is a
  `List Int`.
* Python objects passed to `setEatKeys` are modelled by `PyItem`:
  either an integer (`PyLong_Check` succeeds) or a non-integer.
* `(int)PyLong_AsLong(item)` is modelled by `pyLongAsLongToInt`:
  values outside the 64-bit `long` range yield `-1` (the C-API error
  return, whose pending exception the C code ignores), and the cast
  from `long` to 32-bit `int` wraps modulo `2^32` (signed).
* `CGEventRef` is modelled by `CGEvent`: the event type tag plus the
  fields the code reads.  `CGKeyCode` is `uint16_t`, so the cast
  `(CGKeyCode)CGEventGetIntegerValueField(...)` is `% 65536`.
* Doubles copied verbatim (cursor coordinates) are modelled as `Rat`;
  the timestamp `(double)CGEventGetTimestamp(event) / 1e9` is modelled
  as the exact rational `nanos / 10^9` (no claim depends on floating
  point rounding of the timestamp).
* The Python dictionary built by `eventCallback` is modelled as an
  association list `List (String × PyValue)` in insertion order; all
  keys inserted are distinct.
* The user callback is an oracle `List (String × PyValue) → Option Unit`;
  `none` models `PyObject_CallFunctionObjArgs` returning `NULL`
  (the callback raised), in which case the code calls `PyErr_Print`.
* External conditions (`AXIsProcessTrusted`, `pthread_create` success)
  are Boolean oracles passed to `listenerStart`.
-/

/-- Event types delivered to the tap: the eleven types of the mask built in
`eventLoopThread` (lines 195-206), plus the two tap-management types that
`CGEventTap` delivers to every callback regardless of its mask; the latter
fall into the translator's implicit catch-all. -/
inductive CGEventType where
  | keyDown
  | keyUp
  | leftMouseDown
  | leftMouseUp
  | rightMouseDown
  | rightMouseUp
  | otherMouseDown
  | otherMouseUp
  | mouseMoved
  | leftMouseDragged
  | rightMouseDragged
  | tapDisabledByTimeout
  | tapDisabledByUserInput
  deriving Repr, DecidableEq

/-- The event mask built in `eventLoopThread` (lines 195-206): true exactly
for the eleven event types the hook subscribes to, which are also exactly
the types handled by a branch of the translator (lines 270-328). -/
def inEventMask : CGEventType → Bool
  | CGEventType.keyDown => true
  | CGEventType.keyUp => true
  | CGEventType.leftMouseDown => true
  | CGEventType.leftMouseUp => true
  | CGEventType.rightMouseDown => true
  | CGEventType.rightMouseUp => true
  | CGEventType.otherMouseDown => true
  | CGEventType.otherMouseUp => true
  | CGEventType.mouseMoved => true
  | CGEventType.leftMouseDragged => true
  | CGEventType.rightMouseDragged => true
  | _ => false

/-- A raw `CGEventRef` restricted to the fields the code reads.
`keyCode` is the raw `kCGKeyboardEventKeycode` integer field (a key code,
hence non-negative; the code casts it to `uint16_t`); `keyboardType`,
`button`, `clickState` are raw `int64_t` fields; the five modifier booleans
model the tested bits of `CGEventGetFlags`; `x`, `y` model the
`CGEventGetLocation` doubles, copied verbatim by the code. -/
structure CGEvent where
  type : CGEventType
  timestampNanos : Nat := 0
  keyCode : Nat := 0
  keyboardType : Int := 0
  shift : Bool := false
  control : Bool := false
  alt : Bool := false
  command : Bool := false
  capsLock : Bool := false
  button : Int := 0
  clickState : Int := 0
  x : Rat := 0
  y : Rat := 0
  deriving Repr, DecidableEq

/-- Values stored in the event dictionary built by `eventCallback`. -/
inductive PyValue where
  | str (s : String)
  | int (n : Int)
  | float (q : Rat)
  | bool (b : Bool)
  deriving Repr, DecidableEq

/-- Dictionary lookup on the association-list model of the Python dict. -/
def dlookup (d : List (String × PyValue)) (k : String) : Option PyValue :=
  (d.find? (fun p => p.1 == k)).map (fun p => p.2)

/-- An element of the Python list passed to `setEatKeys`: an integer object
(`PyLong_Check` succeeds, carrying its mathematical value) or anything
else. -/
inductive PyItem where
  | int (v : Int)
  | nonInt
  deriving Repr, DecidableEq

/-- Predicate for `PyLong_Check` (line 158). -/
def isIntItem : PyItem → Bool
  | PyItem.int _ => true
  | PyItem.nonInt => false

/-- The value of `(int)PyLong_AsLong(item)` (line 163): `PyLong_AsLong`
returns `-1` when the value exceeds the 64-bit `long` range (leaving a
pending `OverflowError` the code never checks); the subsequent cast to
32-bit `int` wraps modulo `2^32` into `[-2^31, 2^31)`. -/
def pyLongAsLongToInt (v : Int) : Int :=
  if v < -(2 ^ 63) ∨ 2 ^ 63 ≤ v then -1
  else (v + 2 ^ 31) % 2 ^ 32 - 2 ^ 31

/-- The combined state of the module globals `callbackObj` (registered
callback identity, `none` when `NULL`), `listenerRunning`, and the
effective contents of `eatKeys[0..numEatKeys)`. -/
structure LState where
  callbackObj : Option Nat
  listenerRunning : Bool
  eatKeys : List Int
  deriving Repr, DecidableEq

/-- Errors raised by `listenerStart` (the binding-boundary
`PyArg_ParseTuple` / `PyCallable_Check` failures are out of the modelled
scope). -/
inductive StartErr where
  | alreadyRunning
  | permissionDenied
  | threadSpawnFailed
  deriving Repr, DecidableEq

/-- Outcome of a `listenerStart` call: the Python-level result, the state
of the globals afterwards, and whether a capture thread was spawned
(`pthread_create` succeeded). -/
structure StartOutcome where
  result : Except StartErr Unit
  state : LState
  threadSpawned : Bool

/-- Embedding of `listenerStart` (lines 35-88), for a callable callback.
Order as in the source: the `listenerRunning` guard (line 47), the
`AXIsProcessTrusted` check (line 53), then `numEatKeys = 0` (line 62),
storing the callback reference (lines 65-67), and `pthread_create`
(line 74); on spawn failure the callback reference is dropped and an
error returned (lines 77-83); only on success is `listenerRunning` set
(line 85).  `trusted` and `spawnOk` are the oracles for the two external
calls. -/
def listenerStart (st : LState) (cb : Nat) (trusted : Bool) (spawnOk : Bool) :
    StartOutcome :=
  if st.listenerRunning then
    { result := Except.error StartErr.alreadyRunning, state := st, threadSpawned := false }
  else if !trusted then
    { result := Except.error StartErr.permissionDenied, state := st, threadSpawned := false }
  else
    let st1 : LState := { st with eatKeys := [] }
    let st2 : LState := { st1 with callbackObj := some cb }
    if spawnOk then
      { result := Except.ok ()
        state := { st2 with listenerRunning := true }
        threadSpawned := true }
    else
      { result := Except.error StartErr.threadSpawnFailed
        state := { st2 with callbackObj := none }
        threadSpawned := false }

/-- Errors raised by `listenerSetEatKeys` (the `PyList_Check` type error at
the binding boundary is out of the modelled scope). -/
inductive SetErr where
  | tooMany
  | invalidEntry
  deriving Repr, DecidableEq

/-- The conversion loop of `listenerSetEatKeys` (lines 155-164): `acc` is
the contents of `eatKeys[0..numEatKeys)` written so far.  On a
non-integer item the loop stops and the error is raised with the entries
written so far left in place. -/
def fillEatKeys : List PyItem → List Int → Except SetErr Unit × List Int
  | [], acc => (Except.ok (), acc)
  | PyItem.int v :: rest, acc => fillEatKeys rest (acc ++ [pyLongAsLongToInt v])
  | PyItem.nonInt :: _, acc => (Except.error SetErr.invalidEntry, acc)

/-- Embedding of `listenerSetEatKeys` (lines 134-169): the length guard
`listSize > MAX_EAT_KEYS` (line 148, `MAX_EAT_KEYS = 1024`) precedes any
mutation; then `numEatKeys = 0` followed by the conversion loop. -/
def listenerSetEatKeys (st : LState) (keyList : List PyItem) :
    Except SetErr Unit × LState :=
  if 1024 < keyList.length then
    (Except.error SetErr.tooMany, st)
  else
    let r := fillEatKeys keyList []
    (r.1, { st with eatKeys := r.2 })

/-- Embedding of `shouldEatKey` (lines 174-189): linear scan of the
registry comparing `eatKeys[i] == (int)keyCode` (the argument is already
a `uint16_t` `CGKeyCode`, so the `int` cast is the identity). -/
def shouldEatKey (eatKeys : List Int) (keyCode : Nat) : Bool :=
  eatKeys.any (fun k => k == (keyCode : Int))

/-- The timestamp written into every event dictionary (line 266), as an
exact rational. -/
def tsSeconds (ev : CGEvent) : Rat :=
  (ev.timestampNanos : Rat) / 1000000000

/-- Embedding of the dictionary-building part of `eventCallback`
(lines 263-328): the common `timestamp` field, then the type-specific
fields of whichever branch matches; an event type matching no branch
yields the timestamp-only dictionary. -/
def translateEvent (ev : CGEvent) : List (String × PyValue) :=
  let ts : List (String × PyValue) := [("timestamp", PyValue.float (tsSeconds ev))]
  match ev.type with
  | CGEventType.keyDown =>
      ts ++ [("eventType", PyValue.str "keydown"),
             ("keyCode", PyValue.int ((ev.keyCode % 65536 : Nat) : Int)),
             ("keyboardType", PyValue.int ev.keyboardType),
             ("shift", PyValue.bool ev.shift),
             ("control", PyValue.bool ev.control),
             ("alt", PyValue.bool ev.alt),
             ("command", PyValue.bool ev.command),
             ("capsLock", PyValue.bool ev.capsLock)]
  | CGEventType.keyUp =>
      ts ++ [("eventType", PyValue.str "keyup"),
             ("keyCode", PyValue.int ((ev.keyCode % 65536 : Nat) : Int)),
             ("keyboardType", PyValue.int ev.keyboardType),
             ("shift", PyValue.bool ev.shift),
             ("control", PyValue.bool ev.control),
             ("alt", PyValue.bool ev.alt),
             ("command", PyValue.bool ev.command),
             ("capsLock", PyValue.bool ev.capsLock)]
  | CGEventType.leftMouseDown =>
      ts ++ [("eventType", PyValue.str "leftMouseDown"),
             ("button", PyValue.int ev.button),
             ("clickState", PyValue.int ev.clickState),
             ("x", PyValue.float ev.x), ("y", PyValue.float ev.y)]
  | CGEventType.leftMouseUp =>
      ts ++ [("eventType", PyValue.str "leftMouseUp"),
             ("button", PyValue.int ev.button),
             ("clickState", PyValue.int ev.clickState),
             ("x", PyValue.float ev.x), ("y", PyValue.float ev.y)]
  | CGEventType.rightMouseDown =>
      ts ++ [("eventType", PyValue.str "rightMouseDown"),
             ("button", PyValue.int ev.button),
             ("clickState", PyValue.int ev.clickState),
             ("x", PyValue.float ev.x), ("y", PyValue.float ev.y)]
  | CGEventType.rightMouseUp =>
      ts ++ [("eventType", PyValue.str "rightMouseUp"),
             ("button", PyValue.int ev.button),
             ("clickState", PyValue.int ev.clickState),
             ("x", PyValue.float ev.x), ("y", PyValue.float ev.y)]
  | CGEventType.otherMouseDown =>
      ts ++ [("eventType", PyValue.str "otherMouseDown"),
             ("button", PyValue.int ev.button),
             ("clickState", PyValue.int ev.clickState),
             ("x", PyValue.float ev.x), ("y", PyValue.float ev.y)]
  | CGEventType.otherMouseUp =>
      ts ++ [("eventType", PyValue.str "otherMouseUp"),
             ("button", PyValue.int ev.button),
             ("clickState", PyValue.int ev.clickState),
             ("x", PyValue.float ev.x), ("y", PyValue.float ev.y)]
  | CGEventType.mouseMoved =>
      ts ++ [("eventType", PyValue.str "mouseMoved"),
             ("x", PyValue.float ev.x), ("y", PyValue.float ev.y)]
  | CGEventType.leftMouseDragged =>
      ts ++ [("eventType", PyValue.str "leftMouseDragged"),
             ("x", PyValue.float ev.x), ("y", PyValue.float ev.y)]
  | CGEventType.rightMouseDragged =>
      ts ++ [("eventType", PyValue.str "rightMouseDragged"),
             ("x", PyValue.float ev.x), ("y", PyValue.float ev.y)]
  | _ => ts

/-- The suppress/allow verdict computed by `eventCallback` before any
translation or dispatch (lines 246-257): `none` models returning `NULL`
(suppress), `some ev` models passing the event through. -/
def precomputedVerdict (st : LState) (ev : CGEvent) : Option CGEvent :=
  if ev.type = CGEventType.keyDown ∨ ev.type = CGEventType.keyUp then
    if shouldEatKey st.eatKeys (ev.keyCode % 65536) then none else some ev
  else some ev

/-- Result of one `eventCallback` run: the value returned to the OS, the
list of callback invocations it performed (each with the dictionary it
was handed), and whether `PyErr_Print` ran (the callback raised). -/
structure EventResult where
  returnEvent : Option CGEvent
  invocations : List (List (String × PyValue))
  errorLogged : Bool
  deriving Repr, DecidableEq

/-- Embedding of `eventCallback` (lines 240-347): the `callbackObj` guard
(line 242), the verdict computed before processing (lines 246-257), the
dictionary build (lines 263-328), the single synchronous callback
invocation (line 331) with `PyErr_Print` on failure (lines 334-335), and
the unconditional `return returnEvent` (line 346).  `cb` is the oracle
for the registered Python callback's behaviour. -/
def eventCallback (st : LState) (cb : List (String × PyValue) → Option Unit)
    (ev : CGEvent) : EventResult :=
  if st.callbackObj = none then
    { returnEvent := some ev, invocations := [], errorLogged := false }
  else
    let returnEvent := precomputedVerdict st ev
    let eventDict := translateEvent ev
    let callResult := cb eventDict
    { returnEvent := returnEvent
      invocations := [eventDict]
      errorLogged := callResult.isNone }

/-! Helper lemmas shared by the claim theorems. -/

/-- The linear scan of `shouldEatKey` decides list membership of the key
code. -/
theorem shouldEatKey_iff (keys : List Int) (c : Nat) :
    shouldEatKey keys c = true ↔ (c : Int) ∈ keys := by
  unfold shouldEatKey
  rw [List.any_eq_true]
  constructor
  · rintro ⟨k, hk, hbeq⟩
    rw [beq_iff_eq] at hbeq
    exact hbeq ▸ hk
  · intro hm
    exact ⟨(c : Int), hm, beq_self_eq_true _⟩

/-- The entries the conversion loop has stored when it stops: the converted
values of the items preceding the first non-integer (all items, when every
item is an integer). -/
def convertedUntilInvalid : List PyItem → List Int
  | PyItem.int v :: rest => pyLongAsLongToInt v :: convertedUntilInvalid rest
  | _ => []

/-- Closed form of the conversion loop: it succeeds exactly when every item
is an integer, and in every case appends `convertedUntilInvalid` of the
input to the accumulator. -/
theorem fillEatKeys_eq (kl : List PyItem) (acc : List Int) :
    fillEatKeys kl acc =
      ((if kl.all isIntItem then Except.ok () else Except.error SetErr.invalidEntry),
        acc ++ convertedUntilInvalid kl) := by
  induction kl generalizing acc with
  | nil => simp [fillEatKeys, convertedUntilInvalid]
  | cons hd tl ih =>
      cases hd with
      | int v =>
          simp [fillEatKeys, convertedUntilInvalid, isIntItem, ih]
      | nonInt =>
          simp [fillEatKeys, convertedUntilInvalid, isIntItem]

/-! Claim theorems. -/

/-- C1: while a callback is registered, a key-down/key-up event gets a
suppress verdict (the handler returns `NULL`) if and only if its key code
is in the suppression registry, and an event whose code is not in the
registry is passed through unmodified (allow verdict). -/
theorem eventCallback_suppress_iff_registry (st : LState)
    (cb : List (String × PyValue) → Option Unit) (ev : CGEvent)
    (hcb : st.callbackObj ≠ none)
    (hty : ev.type = CGEventType.keyDown ∨ ev.type = CGEventType.keyUp)
    (hkc : ev.keyCode < 65536) :
    ((eventCallback st cb ev).returnEvent = none ↔ (ev.keyCode : Int) ∈ st.eatKeys) ∧
    ((ev.keyCode : Int) ∉ st.eatKeys → (eventCallback st cb ev).returnEvent = some ev) := by
  have hmod : ev.keyCode % 65536 = ev.keyCode := Nat.mod_eq_of_lt hkc
  have hmain : (eventCallback st cb ev).returnEvent = none ↔ (ev.keyCode : Int) ∈ st.eatKeys := by
    unfold eventCallback precomputedVerdict
    rw [if_neg hcb, if_pos hty, hmod]
    by_cases hs : shouldEatKey st.eatKeys ev.keyCode
    · simp only [if_pos hs]
      simpa using (shouldEatKey_iff st.eatKeys ev.keyCode).mp hs
    · simp only [if_neg hs]
      constructor
      · intro h
        exact absurd h (by simp)
      · intro hm
        exact absurd ((shouldEatKey_iff st.eatKeys ev.keyCode).mpr hm) hs
  refine ⟨hmain, fun hnm => ?_⟩
  have : ¬(eventCallback st cb ev).returnEvent = none := fun h => hnm (hmain.mp h)
  unfold eventCallback precomputedVerdict at this ⊢
  rw [if_neg hcb, if_pos hty, hmod] at this ⊢
  by_cases hs : shouldEatKey st.eatKeys ev.keyCode
  · rw [if_pos hs] at this
    simp at this
  · rw [if_neg hs]

/-- C1 witness: with registry `[5]` and a registered callback, a key-down
event with code 5 is suppressed, per the theorem instantiated there. -/
theorem eventCallback_suppress_iff_registry_witness :
    ((eventCallback { callbackObj := some 0, listenerRunning := true, eatKeys := [5] }
        (fun _ => some ()) { type := CGEventType.keyDown, keyCode := 5 }).returnEvent = none ↔
      ((5 : Nat) : Int) ∈ ([5] : List Int)) ∧
    (((5 : Nat) : Int) ∉ ([5] : List Int) →
      (eventCallback { callbackObj := some 0, listenerRunning := true, eatKeys := [5] }
        (fun _ => some ()) { type := CGEventType.keyDown, keyCode := 5 }).returnEvent =
        some { type := CGEventType.keyDown, keyCode := 5 }) :=
  eventCallback_suppress_iff_registry _ _ _ (by simp) (Or.inl rfl) (by decide)

/-- C4: while a callback is registered, a callback that raises during
dispatch is reported via `PyErr_Print` (`errorLogged`), the error does not
propagate (the handler still returns a value), the verdict returned equals
the verdict computed before dispatch, and the verdict does not depend on
the callback's behaviour at all. -/
theorem eventCallback_callback_fault (st : LState) (ev : CGEvent)
    (cb cb2 : List (String × PyValue) → Option Unit)
    (hcb : st.callbackObj ≠ none)
    (hraise : cb (translateEvent ev) = none) :
    (eventCallback st cb ev).errorLogged = true ∧
    (eventCallback st cb ev).returnEvent = precomputedVerdict st ev ∧
    (eventCallback st cb ev).returnEvent = (eventCallback st cb2 ev).returnEvent := by
  refine ⟨?_, ?_, ?_⟩ <;> simp [eventCallback, hcb, hraise]

/-- C4 witness: a raising callback on a key-down event with code 5 and
registry `[5]`, per the theorem instantiated there. -/
theorem eventCallback_callback_fault_witness :
    (eventCallback { callbackObj := some 0, listenerRunning := true, eatKeys := [5] }
        (fun _ => none) { type := CGEventType.keyDown, keyCode := 5 }).errorLogged = true ∧
    (eventCallback { callbackObj := some 0, listenerRunning := true, eatKeys := [5] }
        (fun _ => none) { type := CGEventType.keyDown, keyCode := 5 }).returnEvent =
      precomputedVerdict { callbackObj := some 0, listenerRunning := true, eatKeys := [5] }
        { type := CGEventType.keyDown, keyCode := 5 } ∧
    (eventCallback { callbackObj := some 0, listenerRunning := true, eatKeys := [5] }
        (fun _ => none) { type := CGEventType.keyDown, keyCode := 5 }).returnEvent =
      (eventCallback { callbackObj := some 0, listenerRunning := true, eatKeys := [5] }
        (fun _ => some ()) { type := CGEventType.keyDown, keyCode := 5 }).returnEvent :=
  eventCallback_callback_fault _ _ _ (fun _ => some ()) (by simp) rfl

/-- C7: a `start` call made while the listener is already running fails
with `AlreadyRunning`, spawns no capture thread, and leaves the whole
state (running flag, stored callback, suppression registry) unchanged. -/
theorem listenerStart_already_running (st : LState) (cb : Nat)
    (trusted spawnOk : Bool) (h : st.listenerRunning = true) :
    (listenerStart st cb trusted spawnOk).result = Except.error StartErr.alreadyRunning ∧
    (listenerStart st cb trusted spawnOk).state = st ∧
    (listenerStart st cb trusted spawnOk).threadSpawned = false := by
  unfold listenerStart
  rw [if_pos h]
  exact ⟨rfl, rfl, rfl⟩

/-- C7 witness: starting on a concrete running state, per the theorem
instantiated there. -/
theorem listenerStart_already_running_witness :
    (listenerStart { callbackObj := some 0, listenerRunning := true, eatKeys := [3] }
        1 true true).result = Except.error StartErr.alreadyRunning ∧
    (listenerStart { callbackObj := some 0, listenerRunning := true, eatKeys := [3] }
        1 true true).state =
      { callbackObj := some 0, listenerRunning := true, eatKeys := [3] } ∧
    (listenerStart { callbackObj := some 0, listenerRunning := true, eatKeys := [3] }
        1 true true).threadSpawned = false :=
  listenerStart_already_running _ _ _ _ rfl

/-- C8: when the listener is stopped, permission is granted, and
`pthread_create` fails, `start` returns `ThreadSpawnFailed`, the stored
callback reference has been released (none registered), and the listener
is not running. -/
theorem listenerStart_spawn_failure_rollback (st : LState) (cb : Nat)
    (h : st.listenerRunning = false) :
    (listenerStart st cb true false).result = Except.error StartErr.threadSpawnFailed ∧
    (listenerStart st cb true false).state.callbackObj = none ∧
    (listenerStart st cb true false).state.listenerRunning = false := by
  unfold listenerStart
  rw [h]
  exact ⟨rfl, rfl, rfl⟩

/-- C8 witness: spawn failure from a concrete stopped state, per the
theorem instantiated there. -/
theorem listenerStart_spawn_failure_rollback_witness :
    (listenerStart { callbackObj := none, listenerRunning := false, eatKeys := [] }
        0 true false).result = Except.error StartErr.threadSpawnFailed ∧
    (listenerStart { callbackObj := none, listenerRunning := false, eatKeys := [] }
        0 true false).state.callbackObj = none ∧
    (listenerStart { callbackObj := none, listenerRunning := false, eatKeys := [] }
        0 true false).state.listenerRunning = false :=
  listenerStart_spawn_failure_rollback _ 0 rfl

/-- C9: event translation is total — every event's dictionary carries the
timestamp field — and an event whose type matches none of the handled
key/button/motion categories (equivalently, is outside the hook mask)
yields the minimal, timestamp-only dictionary. -/
theorem translateEvent_total_minimal (ev : CGEvent) :
    dlookup (translateEvent ev) "timestamp" = some (PyValue.float (tsSeconds ev)) ∧
    (inEventMask ev.type = false →
      translateEvent ev = [("timestamp", PyValue.float (tsSeconds ev))]) := by
  cases h : ev.type <;>
    simp [translateEvent, dlookup, inEventMask, h, List.find?]

/-- C9 witness: a tap-disabled-by-timeout notification (delivered to the
callback despite the mask) yields the timestamp-only dictionary, per the
theorem instantiated there. -/
theorem translateEvent_total_minimal_witness :
    translateEvent { type := CGEventType.tapDisabledByTimeout } =
      [("timestamp", PyValue.float (tsSeconds { type := CGEventType.tapDisabledByTimeout }))] :=
  (translateEvent_total_minimal _).2 rfl

/-- C10: an event that is not key-down and not key-up is always passed
through unmodified (allow verdict), whatever the suppression registry and
whether or not a callback is registered. -/
theorem eventCallback_nonkey_allow (st : LState)
    (cb : List (String × PyValue) → Option Unit) (ev : CGEvent)
    (h1 : ev.type ≠ CGEventType.keyDown) (h2 : ev.type ≠ CGEventType.keyUp) :
    (eventCallback st cb ev).returnEvent = some ev := by
  unfold eventCallback precomputedVerdict
  by_cases hcb : st.callbackObj = none
  · rw [if_pos hcb]
  · rw [if_neg hcb]
    simp [h1, h2]

/-- C10 witness: a mouse-moved event with a non-empty registry is passed
through, per the theorem instantiated there. -/
theorem eventCallback_nonkey_allow_witness :
    (eventCallback { callbackObj := some 0, listenerRunning := true, eatKeys := [0, 1, 2] }
        (fun _ => some ()) { type := CGEventType.mouseMoved, x := 3, y := 4 }).returnEvent =
      some { type := CGEventType.mouseMoved, x := 3, y := 4 } :=
  eventCallback_nonkey_allow _ _ _ (by decide) (by decide)

/-- C2 counterexample: with registry `[5]`, `setEatKeys([7, non-integer])`
is rejected with `InvalidEntry`, yet the registry afterwards is `[7]` —
not its contents before the call — so a rejected update is not
all-or-nothing. -/
theorem listenerSetEatKeys_invalidEntry_mutates_cex :
    (listenerSetEatKeys { callbackObj := none, listenerRunning := false, eatKeys := [5] }
        [PyItem.int 7, PyItem.nonInt]).1 = Except.error SetErr.invalidEntry ∧
    (listenerSetEatKeys { callbackObj := none, listenerRunning := false, eatKeys := [5] }
        [PyItem.int 7, PyItem.nonInt]).2.eatKeys = [7] ∧
    (listenerSetEatKeys { callbackObj := none, listenerRunning := false, eatKeys := [5] }
        [PyItem.int 7, PyItem.nonInt]).2.eatKeys ≠ [5] := by
  refine ⟨rfl, by decide, by decide⟩

/-- C2 (amended): characterization of `setEatKeys` — a `TooMany` rejection
(length over capacity, checked before any mutation) leaves the state
exactly as before; otherwise the call clears the registry and stores the
converted entries preceding the first non-integer, so an `InvalidEntry`
rejection leaves that converted prefix of the new sequence in the registry
(a partially applied update) while a successful call stores the whole
converted sequence; fields other than the registry are never touched. -/
theorem listenerSetEatKeys_rejected_update (st : LState) (kl : List PyItem) :
    listenerSetEatKeys st kl =
      if 1024 < kl.length then (Except.error SetErr.tooMany, st)
      else ((if kl.all isIntItem then Except.ok () else Except.error SetErr.invalidEntry),
            { st with eatKeys := convertedUntilInvalid kl }) := by
  unfold listenerSetEatKeys
  by_cases h : 1024 < kl.length
  · rw [if_pos h, if_pos h]
  · rw [if_neg h, if_neg h, fillEatKeys_eq]
    simp

/-- The mathematical value carried by an integer item (0 for the
non-integer case, which never reaches the conversion). -/
def itemVal : PyItem → Int
  | PyItem.int v => v
  | PyItem.nonInt => 0

/-- When every item is an integer the conversion loop stores the whole
sequence, each entry truncated by `pyLongAsLongToInt`. -/
theorem convertedUntilInvalid_all_int (kl : List PyItem)
    (h : kl.all isIntItem = true) :
    convertedUntilInvalid kl = kl.map (fun it => pyLongAsLongToInt (itemVal it)) := by
  induction kl with
  | nil => rfl
  | cons hd tl ih =>
      cases hd with
      | int v =>
          rw [List.all_cons] at h
          simp only [isIntItem, Bool.true_and] at h
          simp [convertedUntilInvalid, itemVal, ih h]
      | nonInt =>
          rw [List.all_cons] at h
          simp [isIntItem] at h

/-- C6 counterexample: the entry `2^32 + 5` is not representable in the
32-bit `int` slots of `eatKeys` (nor in the 16-bit `CGKeyCode` type), yet
`setEatKeys([2^32 + 5])` succeeds and silently stores the truncated value
`5` — no representability validation is performed. -/
theorem listenerSetEatKeys_no_range_validation_cex :
    (listenerSetEatKeys { callbackObj := none, listenerRunning := false, eatKeys := [] }
        [PyItem.int 4294967301]).1 = Except.ok () ∧
    (listenerSetEatKeys { callbackObj := none, listenerRunning := false, eatKeys := [] }
        [PyItem.int 4294967301]).2.eatKeys = [5] ∧
    ¬((4294967301 : Int) < 2 ^ 31) ∧
    (5 : Int) ≠ 4294967301 := by
  refine ⟨rfl, by decide, by decide, by decide⟩

/-- C6 (amended): `setEatKeys` fails with `TooMany` exactly when the
sequence length exceeds 1024 (a sequence of exactly 1024 keys is
accepted; the length check precedes element validation), fails with
`InvalidEntry` exactly when the length is within capacity and some
element is a non-integer, and succeeds otherwise; accepted entries are
not validated for representability — each integer entry is stored as its
value truncated to the platform `int` by `pyLongAsLongToInt`. -/
theorem listenerSetEatKeys_error_conditions (st : LState) (kl : List PyItem) :
    ((listenerSetEatKeys st kl).1 = Except.error SetErr.tooMany ↔ 1024 < kl.length) ∧
    ((listenerSetEatKeys st kl).1 = Except.error SetErr.invalidEntry ↔
      kl.length ≤ 1024 ∧ ¬kl.all isIntItem = true) ∧
    ((listenerSetEatKeys st kl).1 = Except.ok () ↔
      kl.length ≤ 1024 ∧ kl.all isIntItem = true) ∧
    ((listenerSetEatKeys st kl).1 = Except.ok () →
      (listenerSetEatKeys st kl).2.eatKeys =
        kl.map (fun it => pyLongAsLongToInt (itemVal it))) := by
  unfold listenerSetEatKeys
  by_cases hlen : 1024 < kl.length
  · rw [if_pos hlen]
    refine ⟨by simp [hlen], ?_, ?_, ?_⟩
    · constructor
      · intro h
        exact absurd h (by simp)
      · rintro ⟨h1, -⟩
        omega
    · constructor
      · intro h
        exact absurd h (by simp)
      · rintro ⟨h1, -⟩
        omega
    · intro h
      exact absurd h (by simp)
  · rw [if_neg hlen, fillEatKeys_eq]
    have hle : kl.length ≤ 1024 := Nat.le_of_not_lt hlen
    by_cases hall : kl.all isIntItem = true
    · rw [if_pos hall]
      refine ⟨by simp [hlen], by simp [hall], by simp [hle, hall], ?_⟩
      intro
      simp [convertedUntilInvalid_all_int kl hall]
    · rw [if_neg hall]
      refine ⟨by simp [hlen], by simp [hle, hall], by simp [hall], ?_⟩
      intro h
      exact absurd h (by simp)

/-- C6 witness: the theorem instantiated on the singleton sequence
`[2^32 + 5]`, discharging the success hypothesis there: the stored
registry is the truncated image of the input. -/
theorem listenerSetEatKeys_error_conditions_witness :
    (listenerSetEatKeys { callbackObj := none, listenerRunning := false, eatKeys := [] }
        [PyItem.int 4294967301]).2.eatKeys =
      [PyItem.int 4294967301].map (fun it => pyLongAsLongToInt (itemVal it)) :=
  (listenerSetEatKeys_error_conditions
      { callbackObj := none, listenerRunning := false, eatKeys := [] }
      [PyItem.int 4294967301]).2.2.2 rfl

/-- C5 counterexample: with an empty registry while stopped,
`setEatKeys([5])` succeeds; a subsequent successful `start` leaves the
registry empty (line 62 resets `numEatKeys`), and a key-down event with
code 5 is then passed through (allow) rather than suppressed — the keys
installed before `start` are not the ones consulted after `start`. -/
theorem setEatKeys_before_start_discarded_cex :
    (listenerSetEatKeys { callbackObj := none, listenerRunning := false, eatKeys := [] }
        [PyItem.int 5]).1 = Except.ok () ∧
    (listenerSetEatKeys { callbackObj := none, listenerRunning := false, eatKeys := [] }
        [PyItem.int 5]).2.eatKeys = [5] ∧
    (listenerStart (listenerSetEatKeys
        { callbackObj := none, listenerRunning := false, eatKeys := [] }
        [PyItem.int 5]).2 0 true true).result = Except.ok () ∧
    (listenerStart (listenerSetEatKeys
        { callbackObj := none, listenerRunning := false, eatKeys := [] }
        [PyItem.int 5]).2 0 true true).state.eatKeys = [] ∧
    (eventCallback (listenerStart (listenerSetEatKeys
        { callbackObj := none, listenerRunning := false, eatKeys := [] }
        [PyItem.int 5]).2 0 true true).state (fun _ => some ())
        { type := CGEventType.keyDown, keyCode := 5 }).returnEvent ≠ none ∧
    (eventCallback (listenerStart (listenerSetEatKeys
        { callbackObj := none, listenerRunning := false, eatKeys := [] }
        [PyItem.int 5]).2 0 true true).state (fun _ => some ())
        { type := CGEventType.keyDown, keyCode := 5 }).returnEvent =
      some { type := CGEventType.keyDown, keyCode := 5 } := by
  refine ⟨rfl, by decide, rfl, by decide, by decide, by decide⟩

/-- C5 (amended): `setEatKeys` is accepted with the same outcome in either
lifecycle state, but a suppression set installed while the listener is
stopped does not survive `start`: a successful `start` resets the
registry to empty, so only keys installed after `start` are consulted. -/
theorem setEatKeys_any_state_start_resets (st : LState) (kl : List PyItem)
    (b : Bool) (cb : Nat) (trusted spawnOk : Bool)
    (hok : (listenerStart st cb trusted spawnOk).result = Except.ok ()) :
    (listenerSetEatKeys st kl).1 =
      (listenerSetEatKeys { st with listenerRunning := b } kl).1 ∧
    (listenerStart st cb trusted spawnOk).state.eatKeys = [] := by
  constructor
  · by_cases h : 1024 < kl.length <;> simp [listenerSetEatKeys, h]
  · unfold listenerStart at hok ⊢
    cases h1 : st.listenerRunning with
    | true => simp [h1] at hok
    | false =>
        cases trusted with
        | false => simp [h1] at hok
        | true =>
            cases spawnOk with
            | false => simp [h1] at hok
            | true => simp

/-- C5 (amended) witness: the theorem instantiated on a stopped state with
registry `[9]` and a successful start, discharging its hypothesis
there. -/
theorem setEatKeys_any_state_start_resets_witness :
    (listenerSetEatKeys { callbackObj := none, listenerRunning := false, eatKeys := [9] }
        [PyItem.int 1]).1 =
      (listenerSetEatKeys { callbackObj := none, listenerRunning := true, eatKeys := [9] }
        [PyItem.int 1]).1 ∧
    (listenerStart { callbackObj := none, listenerRunning := false, eatKeys := [9] }
        0 true true).state.eatKeys = [] :=
  setEatKeys_any_state_start_resets
    { callbackObj := none, listenerRunning := false, eatKeys := [9] }
    [PyItem.int 1] true 0 true true rfl

/-- C3: while a callback is registered, an event accepted by the hook mask
produces exactly one callback invocation, handed the translated
dictionary, whose category tag matches the event type and whose fields
equal the raw event's values, for every category. -/
theorem eventCallback_single_dispatch_populated (st : LState)
    (cb : List (String × PyValue) → Option Unit) (ev : CGEvent)
    (hcb : st.callbackObj ≠ none) (hmask : inEventMask ev.type = true)
    (hkc : ev.keyCode < 65536) :
    (eventCallback st cb ev).invocations = [translateEvent ev] ∧
    dlookup (translateEvent ev) "timestamp" = some (PyValue.float (tsSeconds ev)) ∧
    (ev.type = CGEventType.keyDown →
      dlookup (translateEvent ev) "eventType" = some (PyValue.str "keydown") ∧
      dlookup (translateEvent ev) "keyCode" = some (PyValue.int (ev.keyCode : Int)) ∧
      dlookup (translateEvent ev) "keyboardType" = some (PyValue.int ev.keyboardType) ∧
      dlookup (translateEvent ev) "shift" = some (PyValue.bool ev.shift) ∧
      dlookup (translateEvent ev) "control" = some (PyValue.bool ev.control) ∧
      dlookup (translateEvent ev) "alt" = some (PyValue.bool ev.alt) ∧
      dlookup (translateEvent ev) "command" = some (PyValue.bool ev.command) ∧
      dlookup (translateEvent ev) "capsLock" = some (PyValue.bool ev.capsLock)) ∧
    (ev.type = CGEventType.keyUp →
      dlookup (translateEvent ev) "eventType" = some (PyValue.str "keyup") ∧
      dlookup (translateEvent ev) "keyCode" = some (PyValue.int (ev.keyCode : Int)) ∧
      dlookup (translateEvent ev) "keyboardType" = some (PyValue.int ev.keyboardType) ∧
      dlookup (translateEvent ev) "shift" = some (PyValue.bool ev.shift) ∧
      dlookup (translateEvent ev) "control" = some (PyValue.bool ev.control) ∧
      dlookup (translateEvent ev) "alt" = some (PyValue.bool ev.alt) ∧
      dlookup (translateEvent ev) "command" = some (PyValue.bool ev.command) ∧
      dlookup (translateEvent ev) "capsLock" = some (PyValue.bool ev.capsLock)) ∧
    (ev.type = CGEventType.leftMouseDown →
      dlookup (translateEvent ev) "eventType" = some (PyValue.str "leftMouseDown") ∧
      dlookup (translateEvent ev) "button" = some (PyValue.int ev.button) ∧
      dlookup (translateEvent ev) "clickState" = some (PyValue.int ev.clickState) ∧
      dlookup (translateEvent ev) "x" = some (PyValue.float ev.x) ∧
      dlookup (translateEvent ev) "y" = some (PyValue.float ev.y)) ∧
    (ev.type = CGEventType.leftMouseUp →
      dlookup (translateEvent ev) "eventType" = some (PyValue.str "leftMouseUp") ∧
      dlookup (translateEvent ev) "button" = some (PyValue.int ev.button) ∧
      dlookup (translateEvent ev) "clickState" = some (PyValue.int ev.clickState) ∧
      dlookup (translateEvent ev) "x" = some (PyValue.float ev.x) ∧
      dlookup (translateEvent ev) "y" = some (PyValue.float ev.y)) ∧
    (ev.type = CGEventType.rightMouseDown →
      dlookup (translateEvent ev) "eventType" = some (PyValue.str "rightMouseDown") ∧
      dlookup (translateEvent ev) "button" = some (PyValue.int ev.button) ∧
      dlookup (translateEvent ev) "clickState" = some (PyValue.int ev.clickState) ∧
      dlookup (translateEvent ev) "x" = some (PyValue.float ev.x) ∧
      dlookup (translateEvent ev) "y" = some (PyValue.float ev.y)) ∧
    (ev.type = CGEventType.rightMouseUp →
      dlookup (translateEvent ev) "eventType" = some (PyValue.str "rightMouseUp") ∧
      dlookup (translateEvent ev) "button" = some (PyValue.int ev.button) ∧
      dlookup (translateEvent ev) "clickState" = some (PyValue.int ev.clickState) ∧
      dlookup (translateEvent ev) "x" = some (PyValue.float ev.x) ∧
      dlookup (translateEvent ev) "y" = some (PyValue.float ev.y)) ∧
    (ev.type = CGEventType.otherMouseDown →
      dlookup (translateEvent ev) "eventType" = some (PyValue.str "otherMouseDown") ∧
      dlookup (translateEvent ev) "button" = some (PyValue.int ev.button) ∧
      dlookup (translateEvent ev) "clickState" = some (PyValue.int ev.clickState) ∧
      dlookup (translateEvent ev) "x" = some (PyValue.float ev.x) ∧
      dlookup (translateEvent ev) "y" = some (PyValue.float ev.y)) ∧
    (ev.type = CGEventType.otherMouseUp →
      dlookup (translateEvent ev) "eventType" = some (PyValue.str "otherMouseUp") ∧
      dlookup (translateEvent ev) "button" = some (PyValue.int ev.button) ∧
      dlookup (translateEvent ev) "clickState" = some (PyValue.int ev.clickState) ∧
      dlookup (translateEvent ev) "x" = some (PyValue.float ev.x) ∧
      dlookup (translateEvent ev) "y" = some (PyValue.float ev.y)) ∧
    (ev.type = CGEventType.mouseMoved →
      dlookup (translateEvent ev) "eventType" = some (PyValue.str "mouseMoved") ∧
      dlookup (translateEvent ev) "x" = some (PyValue.float ev.x) ∧
      dlookup (translateEvent ev) "y" = some (PyValue.float ev.y)) ∧
    (ev.type = CGEventType.leftMouseDragged →
      dlookup (translateEvent ev) "eventType" = some (PyValue.str "leftMouseDragged") ∧
      dlookup (translateEvent ev) "x" = some (PyValue.float ev.x) ∧
      dlookup (translateEvent ev) "y" = some (PyValue.float ev.y)) ∧
    (ev.type = CGEventType.rightMouseDragged →
      dlookup (translateEvent ev) "eventType" = some (PyValue.str "rightMouseDragged") ∧
      dlookup (translateEvent ev) "x" = some (PyValue.float ev.x) ∧
      dlookup (translateEvent ev) "y" = some (PyValue.float ev.y)) := by
  have hinv : (eventCallback st cb ev).invocations = [translateEvent ev] := by
    unfold eventCallback
    rw [if_neg hcb]
  refine ⟨hinv, ?_⟩
  cases h : ev.type <;>
    simp_all [translateEvent, dlookup, List.find?, Nat.mod_eq_of_lt hkc]

/-- The spec's example event: a left-mouse-down at (100.5, 200.25) with
button 0 and click state 1. -/
def exampleLeftDown : CGEvent :=
  { type := CGEventType.leftMouseDown, button := 0, clickState := 1,
    x := 100.5, y := 200.25 }

/-- C3 witness: the spec's example instantiated through the theorem — a
left-mouse-down at (100.5, 200.25) with button 0 and click state 1 is
dispatched exactly once with `eventType "leftMouseDown"`, `x 100.5`,
`y 200.25`, `button 0`, `clickState 1`. -/
theorem eventCallback_single_dispatch_populated_witness :
    (eventCallback { callbackObj := some 0, listenerRunning := true, eatKeys := [] }
        (fun _ => some ()) exampleLeftDown).invocations = [translateEvent exampleLeftDown] ∧
    dlookup (translateEvent exampleLeftDown) "eventType" = some (PyValue.str "leftMouseDown") ∧
    dlookup (translateEvent exampleLeftDown) "x" = some (PyValue.float 100.5) ∧
    dlookup (translateEvent exampleLeftDown) "y" = some (PyValue.float 200.25) ∧
    dlookup (translateEvent exampleLeftDown) "button" = some (PyValue.int 0) ∧
    dlookup (translateEvent exampleLeftDown) "clickState" = some (PyValue.int 1) := by
  have h := eventCallback_single_dispatch_populated
    { callbackObj := some 0, listenerRunning := true, eatKeys := [] }
    (fun _ => some ()) exampleLeftDown (by simp) rfl (by decide)
  obtain ⟨h1, -, -, -, hl, -⟩ := h
  obtain ⟨htag, hbtn, hclick, hx, hy⟩ := hl rfl
  exact ⟨h1, htag, hx, hy, hbtn, hclick⟩
